import Mathlib

/-!
Verification of the query/filter construction and response-normalization
layer of a LeetCode command-line client (`src/api.py`, `src/models.py`,
`src/session.py`, `src/cli.py`).

JSON values are embedded as the inductive `JVal`; Python dicts are
association lists in insertion order, mirroring dict semantics (unique
keys, insertion-ordered).  Python functions that can raise are embedded
as `Option`/`Except`-returning Lean functions.
-/

/-- A decoded JSON value. Python numbers (int and float alike) are carried
as rationals. -/
inductive JVal where
  | null : JVal
  | bool (b : Bool) : JVal
  | num (q : ℚ) : JVal
  | str (s : String) : JVal
  | arr (xs : List JVal) : JVal
  | obj (fields : List (String × JVal)) : JVal

/-- A decoded JSON object: fields in insertion order, keys unique. -/
abbrev JObj := List (String × JVal)

/-- The keys of a JSON object, in insertion order. -/
def jkeys (fs : JObj) : List String := fs.map Prod.fst

/-- Python truthiness of an `Optional[str]`: `None` and `""` are falsy,
every other string is truthy. -/
def truthy : Option String → Bool
  | none => false
  | some s => !(s == "")

/-- `QuestionFilter` (models.py lines 76-84): the validated request.
The dataclass defaults are `status=None`, `difficulty=None`,
`search_keyword=None`, `limit=50`, `skip=0`, `include_paid=True`. -/
structure QuestionFilter where
  status : Option String
  difficulty : Option String
  search_keyword : Option String
  limit : Int
  skip : Int
  include_paid : Bool

/-- The dataclass defaults of `QuestionFilter` (models.py lines 79-84). -/
def QuestionFilter.defaults : QuestionFilter :=
  QuestionFilter.mk none none none 50 0 true

/-- Python `str.upper()` as used on difficulty values: uppercase every
character (ASCII-identical to the library function, stated over the
character list so that it evaluates by kernel reduction). -/
def pyUpper (s : String) : String := String.mk (s.data.map Char.toUpper)

/-- `filters` dict of `LeetCodeAPI.fetch_questions` (api.py lines 139-161):
starts with `filterCombineType = "ALL"`, then conditionally appends
`statusFilter`, `difficultyFilter`, `paidOnlyFilter` in that order.
Each `if filter_criteria.X:` guard is Python truthiness. -/
def buildFilters (f : QuestionFilter) : JObj :=
  let filters : JObj := [("filterCombineType", JVal.str "ALL")]
  let filters : JObj :=
    match f.status with
    | some s =>
        if s == "" then filters
        else filters ++ [("statusFilter", JVal.obj
          [("questionStatuses", JVal.arr [JVal.str s]),
           ("operator", JVal.str "IS")])]
    | none => filters
  let filters : JObj :=
    match f.difficulty with
    | some d =>
        if d == "" then filters
        else filters ++ [("difficultyFilter", JVal.obj
          [("difficulties", JVal.arr [JVal.str (pyUpper d)]),
           ("operator", JVal.str "IS")])]
    | none => filters
  let filters : JObj :=
    if !f.include_paid then
      filters ++ [("paidOnlyFilter", JVal.obj
        [("paidOnly", JVal.bool false),
         ("operator", JVal.str "IS")])]
    else filters
  filters

/-- `variables` dict of `LeetCodeAPI.fetch_questions` (api.py lines
126-163): always `limit`, `skip` and the fixed `sortBy` directive;
`searchKeyword` appended only when truthy; finally the `filters`
sub-object. -/
def buildVariables (f : QuestionFilter) : JObj :=
  let vars : JObj :=
    [("limit", JVal.num f.limit),
     ("skip", JVal.num f.skip),
     ("sortBy", JVal.obj
       [("sortField", JVal.str "CUSTOM"),
        ("sortOrder", JVal.str "ASCENDING")])]
  let vars : JObj :=
    match f.search_keyword with
    | some kw => if kw == "" then vars
        else vars ++ [("searchKeyword", JVal.str kw)]
    | none => vars
  vars ++ [("filters", JVal.obj (buildFilters f))]

/-- Python `str.lower()` as used on status/difficulty input: lowercase
every character (ASCII-identical to the library function, stated over the
character list so that it evaluates by kernel reduction). -/
def pyLower (s : String) : String := String.mk (s.data.map Char.toLower)

/-- Python `str.strip()`: remove leading and trailing whitespace. -/
def pyStrip (s : String) : String :=
  String.mk (((s.data.dropWhile Char.isWhitespace).reverse.dropWhile
    Char.isWhitespace).reverse)

/-- Whether the first list is an initial segment of the second. -/
def matchesAt : List Char → List Char → Bool
  | [], _ => true
  | _ :: _, [] => false
  | a :: as, b :: bs => a == b && matchesAt as bs

/-- Whether the first list occurs contiguously inside the second. -/
def hasSub (sm : List Char) : List Char → Bool
  | [] => matchesAt sm []
  | c :: rest => matchesAt sm (c :: rest) || hasSub sm rest

/-- Whether `sm` occurs as a contiguous substring of `big`. -/
def strContainsSub (big sm : String) : Bool := hasSub sm.data big.data

/-- The status alias table of `LeetCodeCLI._normalize_status` (cli.py
lines 313-323), in insertion order.  The uppercase keys are present in
the source but unreachable, because the lookup key is lowercased first. -/
def status_mapping : List (String × String) :=
  [("solved", "SOLVED"), ("attempted", "ATTEMPTED"), ("todo", "TO_DO"),
   ("to_do", "TO_DO"), ("to-do", "TO_DO"),
   ("SOLVED", "SOLVED"), ("ATTEMPTED", "ATTEMPTED"), ("TO_DO", "TO_DO")]

/-- `LeetCodeCLI._normalize_status` (cli.py lines 301-330).  `None` and
`""` are falsy in Python, so both yield no filter; otherwise the
lowercased input is looked up in the alias table, and an unrecognized
value raises `ValueError` (embedded as `Except.error`) listing the valid
options. -/
def normalize_status (status : Option String) : Except String (Option String) :=
  match status with
  | none => Except.ok none
  | some s =>
    if s == "" then Except.ok none
    else
      match List.lookup (pyLower s) status_mapping with
      | some n => Except.ok (some n)
      | none => Except.error
          ("Invalid status \x27" ++ (s ++ ("\x27. Valid options: " ++
            String.intercalate ", " ["solved", "attempted", "todo"])))

/-- `Question` (models.py lines 7-18). -/
structure Question where
  id : String
  title : String
  title_slug : String
  difficulty : String
  status : Option String
  topics : List String
  acceptance_rate : ℚ
  is_paid_only : Bool
  frequency : Option ℚ

/-- `data[k]` for a field the mapper requires to be a string
(`KeyError` on a missing key, and a non-string value cannot inhabit the
typed field, so both are mapping failures). -/
def getStr (d : JObj) (k : String) : Option String :=
  match List.lookup k d with
  | some (JVal.str s) => some s
  | _ => none

/-- `data.get(k)` for an `Optional[str]` field: a missing key and an
explicit JSON null both yield Python `None`; a string yields the string;
any other value cannot inhabit the typed field. -/
def pyGetOptStr (d : JObj) (k : String) : Option (Option String) :=
  match List.lookup k d with
  | none => some none
  | some JVal.null => some none
  | some (JVal.str s) => some (some s)
  | some _ => none

/-- `data.get(k, dflt)` for a numeric field: a missing key yields the
default; a number yields itself; any other value cannot inhabit the
typed field. -/
def pyGetNumD (d : JObj) (k : String) (dflt : ℚ) : Option ℚ :=
  match List.lookup k d with
  | none => some dflt
  | some (JVal.num q) => some q
  | some _ => none

/-- `data.get(k, dflt)` for a boolean field. -/
def pyGetBoolD (d : JObj) (k : String) (dflt : Bool) : Option Bool :=
  match List.lookup k d with
  | none => some dflt
  | some (JVal.bool b) => some b
  | some _ => none

/-- `data.get(k)` for an `Optional[float]` field: missing key and JSON
null both yield Python `None`. -/
def pyGetOptNum (d : JObj) (k : String) : Option (Option ℚ) :=
  match List.lookup k d with
  | none => some none
  | some JVal.null => some none
  | some (JVal.num q) => some (some q)
  | some _ => none

/-- The `name` field of one element of `topicTags` (models.py line 29):
a non-object tag or a missing/non-string name raises in Python. -/
def tagName (t : JVal) : Option String :=
  match t with
  | JVal.obj fs =>
    match List.lookup "name" fs with
    | some (JVal.str s) => some s
    | _ => none
  | _ => none

/-- The `topicTags` comprehension (models.py line 29), collecting the
`name` of every tag: a missing key defaults to the empty list; a
non-list value (including null) makes the comprehension raise. -/
def getTopics (v : Option JVal) : Option (List String) :=
  match v with
  | none => some []
  | some (JVal.arr tags) => tags.mapM tagName
  | some _ => none

/-- `Question.from_api_response` (models.py lines 20-33): required
identity fields via `data[...]`, optional fields via `data.get(...)`
with the defaults of the source. -/
def Question.from_api_response (d : JObj) : Option Question := do
  let id ← getStr d "questionFrontendId"
  let title ← getStr d "title"
  let title_slug ← getStr d "titleSlug"
  let difficulty ← getStr d "difficulty"
  let status ← pyGetOptStr d "status"
  let topics ← getTopics (List.lookup "topicTags" d)
  let acceptance_rate ← pyGetNumD d "acRate" 0
  let is_paid_only ← pyGetBoolD d "paidOnly" false
  let frequency ← pyGetOptNum d "frequency"
  some (Question.mk id title title_slug difficulty status topics
    acceptance_rate is_paid_only frequency)

/-- `Question.url` (models.py lines 35-38). -/
def Question.url (q : Question) : String :=
  "https://leetcode.com/problems/" ++ q.title_slug

/-- The raw Two Sum record of the spec example (and of
tests/test_models.py, with a single topic tag). -/
def twoSumRaw : JObj :=
  [("questionFrontendId", JVal.str "1"),
   ("title", JVal.str "Two Sum"),
   ("titleSlug", JVal.str "two-sum"),
   ("difficulty", JVal.str "Easy"),
   ("status", JVal.str "SOLVED"),
   ("topicTags", JVal.arr [JVal.obj [("name", JVal.str "Array")]]),
   ("acRate", JVal.num 51.3),
   ("paidOnly", JVal.bool false),
   ("frequency", JVal.num 0.8)]

/-- A raw record carrying only the required identity fields. -/
def minimalRaw : JObj :=
  [("questionFrontendId", JVal.str "9"),
   ("title", JVal.str "Palindrome Number"),
   ("titleSlug", JVal.str "palindrome-number"),
   ("difficulty", JVal.str "Easy")]

/-- `UserInfo` (models.py lines 55-59): `solved_counts` is a Python dict
embedded as an association list in insertion order. -/
structure UserInfo where
  username : String
  solved_counts : List (String × ℚ)

/-- Python dict assignment `m[k] = v`: overwrite in place when the key
exists, else append. -/
def dictSet (m : List (String × ℚ)) (k : String) (v : ℚ) :
    List (String × ℚ) :=
  if m.any (fun p => p.1 == k) then
    m.map (fun p => if p.1 == k then (p.1, v) else p)
  else m ++ [(k, v)]

/-- One iteration of the `acSubmissionNum` loop (models.py lines 68-71):
read the `difficulty` and `count` fields of the submission, then the
dict assignment.  A non-object submission, a missing key, a non-string
difficulty or a non-numeric count makes Python raise (mapping failure in
the typed model). -/
def addSubmission (m : List (String × ℚ)) (sub : JVal) :
    Option (List (String × ℚ)) :=
  match sub with
  | JVal.obj sf =>
    match List.lookup "difficulty" sf, List.lookup "count" sf with
    | some (JVal.str diff), some (JVal.num c) => some (dictSet m diff c)
    | _, _ => none
  | _ => none

/-- `UserInfo.from_api_response` (models.py lines 61-73): the guard
testing that the `submitStats` and `acSubmissionNum` keys are present
skips the loop (leaving the dict empty) when either key is absent;
otherwise every submission in the list is folded into the dict. -/
def UserInfo.from_api_response (d : JObj) : Option UserInfo := do
  let username ← getStr d "username"
  let solved_counts ←
    match List.lookup "submitStats" d with
    | none => some []
    | some (JVal.obj ss) =>
      match List.lookup "acSubmissionNum" ss with
      | none => some []
      | some (JVal.arr subs) => subs.foldlM addSubmission []
      | some _ => none
    | some _ => none
  some (UserInfo.mk username solved_counts)

/-- The result of one transport call, `LeetCodeAPI._make_request`
(api.py lines 30-79).  The source raises a single `LeetCodeAPIError`
class; the constructors record which classification branch raised, as in
the error taxonomy of the design.  `pyRaise` marks code paths where the
source raises an exception other than `LeetCodeAPIError` (escaping
`_make_request`). -/
inductive RequestResult where
  | success (data : JObj)
  | sessionNotLoaded (msg : String)
  | apiError (msg : String)
  | parseError (msg : String)
  | pyRaise

/-- An HTTP response as seen by `_make_request` after `requests.post`
returns: the status code, the raw body text, the decoded JSON body
(`none` when `response.json()` raises `json.JSONDecodeError`; GraphQL
bodies are JSON objects), and the rendering of that decode error by
`str(e)`: the message of the decoder with line/column/char position. -/
structure HttpResponse where
  status : Int
  rawBody : String
  decoded : Option JObj
  decodeErrMsg : String

/-- The comprehension over the `errors` array (api.py lines 64 and 69),
reading the `message` of every error with the default `Unknown error`,
followed by the comma join: an object element without a `message` key
yields the default; a string message yields itself; any other element or
message value makes Python raise in the comprehension or in the join
(`none` here). -/
def errMessages (es : List JVal) : Option (List String) :=
  es.mapM (fun e =>
    match e with
    | JVal.obj fs =>
      match List.lookup "message" fs with
      | some (JVal.str m) => some m
      | none => some "Unknown error"
      | some _ => none
    | _ => none)

/-- `LeetCodeAPI._make_request` (api.py lines 30-79) given the response
of the single POST: the session guard runs first; `response.json()` runs
before the status check, so a malformed body is a parse failure whatever
the status; a non-200 status then raises, appending the concatenated
GraphQL error messages when an `errors` key is present; with status 200
an `errors` key (of any arity) raises; otherwise the decoded body is
returned. -/
def make_request (sessionLoaded : Bool) (resp : HttpResponse) :
    RequestResult :=
  if !sessionLoaded then
    RequestResult.sessionNotLoaded
      "Session not loaded. Please load session first."
  else
    match resp.decoded with
    | none => RequestResult.parseError
        ("Failed to parse JSON response: " ++ resp.decodeErrMsg)
    | some data =>
      if resp.status ≠ 200 then
        match List.lookup "errors" data with
        | none => RequestResult.apiError
            ("API request failed with status code: " ++ toString resp.status)
        | some (JVal.arr es) =>
          match errMessages es with
          | some msgs => RequestResult.apiError
              ("API request failed with status code: " ++
                toString resp.status ++ ". Errors: " ++
                String.intercalate ", " msgs)
          | none => RequestResult.pyRaise
        | some _ => RequestResult.pyRaise
      else
        match List.lookup "errors" data with
        | none => RequestResult.success data
        | some (JVal.arr es) =>
          match errMessages es with
          | some msgs => RequestResult.apiError
              ("GraphQL errors: " ++ String.intercalate ", " msgs)
          | none => RequestResult.pyRaise
        | some _ => RequestResult.pyRaise

/-- `SessionManager.load_session` (session.py lines 23-55) over the
manager state (`session_token`) and the session file (`none` = file
missing).  Returns the Python result together with the state after the
call: every failure path returns `False` leaving `session_token`
untouched. -/
def load_session (session_token : Option String) (file : Option String) :
    Bool × Option String :=
  match file with
  | none => (false, session_token)
  | some content =>
    let token := pyStrip content
    if token == "" then (false, session_token)
    else (true, some token)

/-- `SessionManager.is_session_loaded` (session.py lines 94-100). -/
def is_session_loaded (session_token : Option String) : Bool :=
  session_token.isSome

/-- `QuestionStatus.all()` (config.py lines 22-25). -/
def questionStatusAll : List String := ["SOLVED", "ATTEMPTED", "TO_DO"]

/-- Placeholder for the message of the generic handler of
`fetch_questions` (api.py lines 180-182); the source appends `str(e)` of
the escaped exception. -/
def unexpectedFetchMsg : String := "Unexpected error fetching questions"

/-- The response-parsing tail of `fetch_questions` (api.py lines
168-173): the chained defaulting walk through the `data`,
`problemsetQuestionListV2` and `questions` keys, then the list of
records is mapped through `Question.from_api_response`.  A `.get` on a
non-dict value, or a failing record conversion, raises in Python and
lands in the generic handler. -/
def fetch_parse (data : JObj) : Except String (List Question) :=
  match List.lookup "data" data with
  | some JVal.null => Except.error unexpectedFetchMsg
  | some (JVal.obj dfs) =>
    (match List.lookup "problemsetQuestionListV2" dfs with
     | some (JVal.obj pfs) =>
       (match List.lookup "questions" pfs with
        | some (JVal.arr qs) =>
          (match qs.mapM (fun q =>
              match q with
              | JVal.obj qfs => Question.from_api_response qfs
              | _ => none) with
           | some questions => Except.ok questions
           | none => Except.error unexpectedFetchMsg)
        | none => Except.ok []
        | some _ => Except.error unexpectedFetchMsg)
     | none => Except.ok []
     | some _ => Except.error unexpectedFetchMsg)
  | none =>
    -- a missing data key defaults to the empty dict; the two inner
    -- .get calls then default as well, producing no questions
    Except.ok []
  | some _ => Except.error unexpectedFetchMsg

/-- `LeetCodeAPI.fetch_questions` (api.py lines 105-182) given the
response of the POST that carries `buildVariables filter_criteria`:
validate the status value, classify the exchange as `_make_request`
does, then parse the payload.  Every failure is a `LeetCodeAPIError`
message (`Except.error`). -/
def fetch_questions (sessionLoaded : Bool) (f : QuestionFilter)
    (resp : HttpResponse) : Except String (List Question) :=
  if truthy f.status && !(questionStatusAll.contains (f.status.getD "")) then
    Except.error ("Invalid question status \x27" ++ f.status.getD "" ++
      "\x27. Supported values: SOLVED, ATTEMPTED, TO_DO")
  else
    match make_request sessionLoaded resp with
    | RequestResult.success data => fetch_parse data
    | RequestResult.sessionNotLoaded m => Except.error m
    | RequestResult.apiError m => Except.error m
    | RequestResult.parseError m => Except.error m
    | RequestResult.pyRaise => Except.error unexpectedFetchMsg

/-- `LeetCodeAPI.search_questions` (api.py lines 184-198): build a
`QuestionFilter` giving only `search_keyword` and `limit`, every other
field taking its dataclass default, and delegate to `fetch_questions`. -/
def search_questions (sessionLoaded : Bool) (keyword : String)
    (limit : Int) (resp : HttpResponse) : Except String (List Question) :=
  let filter_criteria := QuestionFilter.mk QuestionFilter.defaults.status
    QuestionFilter.defaults.difficulty (some keyword) limit
    QuestionFilter.defaults.skip QuestionFilter.defaults.include_paid
  fetch_questions sessionLoaded filter_criteria resp

/-- The filter described by claim C10, written from the words of the claim:
search keyword and limit as given, status and difficulty unset, skip 0,
paid content included. -/
def searchFilterSpec (keyword : String) (limit : Int) : QuestionFilter :=
  QuestionFilter.mk none none (some keyword) limit 0 true

/-- A raw user record whose `acSubmissionNum` reports a difficulty label
outside Easy/Medium/Hard (the live platform reports an `All` aggregate
in exactly this shape). -/
def allCountsRaw : JObj :=
  [("username", JVal.str "u"),
   ("submitStats", JVal.obj
     [("acSubmissionNum", JVal.arr
       [JVal.obj [("difficulty", JVal.str "All"),
                  ("count", JVal.num 5)]])])]

/-- The raw user record of tests/test_session.py and tests/test_models.py. -/
def sampleUserRaw : JObj :=
  [("username", JVal.str "testuser"),
   ("submitStats", JVal.obj
     [("acSubmissionNum", JVal.arr
       [JVal.obj [("difficulty", JVal.str "Easy"), ("count", JVal.num 50)],
        JVal.obj [("difficulty", JVal.str "Medium"), ("count", JVal.num 30)],
        JVal.obj [("difficulty", JVal.str "Hard"), ("count", JVal.num 10)]])])]

/-- A 200 response whose decoded body carries an empty `errors` array. -/
def emptyErrorsResp : HttpResponse :=
  HttpResponse.mk 200 "\x7b\x22errors\x22: []\x7d"
    (some [("errors", JVal.arr [])]) ""

/-- A 200 response reporting one GraphQL error. -/
def authErrorResp : HttpResponse :=
  HttpResponse.mk 200 ""
    (some [("errors", JVal.arr
      [JVal.obj [("message", JVal.str "Not authenticated")]])]) ""

/-- A response whose body is not JSON; its `decodeErrMsg` is exactly the
rendering `str(e)` the Python stdlib produces for this body
(`json.loads("not json")`). -/
def notJsonResp : HttpResponse :=
  HttpResponse.mk 200 "not json" none
    "Expecting value: line 1 column 1 (char 0)"

/-- C1: for every `QuestionFilter`, the `filters` object built by the
query builder contains `statusFilter` exactly when `status` is set
(truthy), `difficultyFilter` exactly when `difficulty` is set, and
`paidOnlyFilter` exactly when `include_paid` is false; an unset field
leaves the key entirely absent. -/
theorem buildFilters_key_presence (f : QuestionFilter) :
    ((jkeys (buildFilters f)).contains "statusFilter" = truthy f.status) ∧
    ((jkeys (buildFilters f)).contains "difficultyFilter" = truthy f.difficulty) ∧
    ((jkeys (buildFilters f)).contains "paidOnlyFilter" = !f.include_paid) := by
  obtain ⟨st, df, kw, lim, sk, ip⟩ := f
  refine ⟨?_, ?_, ?_⟩ <;>
    rcases st with _ | s <;> rcases df with _ | d <;> cases ip <;>
    first
    | (by_cases hs : s = "" <;> by_cases hd : d = "" <;>
        simp [buildFilters, jkeys, truthy, hs, hd])
    | (by_cases hs : s = "" <;> simp [buildFilters, jkeys, truthy, hs])
    | (by_cases hd : d = "" <;> simp [buildFilters, jkeys, truthy, hd])
    | simp [buildFilters, jkeys, truthy]

/-- C2: for every `QuestionFilter`, the built variables always contain
`limit`, `skip`, the fixed `sortBy` directive (`CUSTOM`, `ASCENDING`) and
a `filters` object with `filterCombineType = "ALL"`; `searchKeyword` is
present exactly when the keyword is set (truthy); when a difficulty is
set, `difficultyFilter` carries the single-element uppercased list with
operator `IS`. -/
theorem buildVariables_contents (f : QuestionFilter) :
    (List.lookup "limit" (buildVariables f) = some (JVal.num f.limit)) ∧
    (List.lookup "skip" (buildVariables f) = some (JVal.num f.skip)) ∧
    (List.lookup "sortBy" (buildVariables f) = some (JVal.obj
      [("sortField", JVal.str "CUSTOM"),
       ("sortOrder", JVal.str "ASCENDING")])) ∧
    (List.lookup "filters" (buildVariables f) =
      some (JVal.obj (buildFilters f))) ∧
    (List.lookup "filterCombineType" (buildFilters f) =
      some (JVal.str "ALL")) ∧
    ((jkeys (buildVariables f)).contains "searchKeyword" =
      truthy f.search_keyword) ∧
    (∀ kw, f.search_keyword = some kw → kw ≠ "" →
      List.lookup "searchKeyword" (buildVariables f) = some (JVal.str kw)) ∧
    (∀ d, f.difficulty = some d → d ≠ "" →
      List.lookup "difficultyFilter" (buildFilters f) = some (JVal.obj
        [("difficulties", JVal.arr [JVal.str (pyUpper d)]),
         ("operator", JVal.str "IS")])) := by
  obtain ⟨st, df, kw, lim, sk, ip⟩ := f
  refine ⟨?_, ?_, ?_, ?_, ?_, ?_, ?_, ?_⟩
  · rcases kw with _ | k
    · simp [buildVariables, List.lookup]
    · by_cases hk : k = "" <;> simp [buildVariables, List.lookup, hk]
  · rcases kw with _ | k
    · simp [buildVariables, List.lookup]
    · by_cases hk : k = "" <;> simp [buildVariables, List.lookup, hk]
  · rcases kw with _ | k
    · simp [buildVariables, List.lookup]
    · by_cases hk : k = "" <;> simp [buildVariables, List.lookup, hk]
  · rcases kw with _ | k
    · simp [buildVariables, List.lookup]
    · by_cases hk : k = "" <;> simp [buildVariables, List.lookup, hk]
  · rcases st with _ | s <;> rcases df with _ | d <;> cases ip <;>
      first
      | (by_cases hs : s = "" <;> by_cases hd : d = "" <;>
          simp [buildFilters, List.lookup, hs, hd])
      | (by_cases hs : s = "" <;> simp [buildFilters, List.lookup, hs])
      | (by_cases hd : d = "" <;> simp [buildFilters, List.lookup, hd])
      | simp [buildFilters, List.lookup]
  · rcases kw with _ | k
    · simp [buildVariables, jkeys, truthy]
    · by_cases hk : k = "" <;> simp [buildVariables, jkeys, truthy, hk]
  · intro k hk hne
    subst hk
    simp [buildVariables, List.lookup, hne]
  · intro d hd hne
    subst hd
    rcases st with _ | s <;> cases ip <;>
      first
      | (by_cases hs : s = "" <;> simp [buildFilters, List.lookup, hne, hs])
      | simp [buildFilters, List.lookup, hne]

/-- Witness for C2 at a concrete fully-set filter. -/
theorem buildVariables_contents_witness :
    List.lookup "searchKeyword"
        (buildVariables (QuestionFilter.mk (some "SOLVED") (some "Easy")
          (some "two sum") 10 5 false)) = some (JVal.str "two sum") ∧
    List.lookup "difficultyFilter"
        (buildFilters (QuestionFilter.mk (some "SOLVED") (some "Easy")
          (some "two sum") 10 5 false)) = some (JVal.obj
        [("difficulties", JVal.arr [JVal.str "EASY"]),
         ("operator", JVal.str "IS")]) := by
  have h := buildVariables_contents
    (QuestionFilter.mk (some "SOLVED") (some "Easy") (some "two sum") 10 5 false)
  refine ⟨h.2.2.2.2.2.2.1 "two sum" rfl (by decide), ?_⟩
  exact h.2.2.2.2.2.2.2 "Easy" rfl (by decide)

/-- C3: `normalize_status` maps every case variant of a recognized alias
(solved, attempted, todo, to_do, to-do, and the already-canonical forms,
whose lowercasings are those aliases) to the same canonical value, maps
null/empty input to no filter, and rejects any other non-empty string
with a `ValueError` listing the valid lowercase options. -/
theorem normalize_status_spec :
    (normalize_status none = Except.ok none) ∧
    (normalize_status (some "") = Except.ok none) ∧
    (∀ s, pyLower s = "solved" →
      normalize_status (some s) = Except.ok (some "SOLVED")) ∧
    (∀ s, pyLower s = "attempted" →
      normalize_status (some s) = Except.ok (some "ATTEMPTED")) ∧
    (∀ s, pyLower s = "todo" ∨ pyLower s = "to_do" ∨ pyLower s = "to-do" →
      normalize_status (some s) = Except.ok (some "TO_DO")) ∧
    (∀ s, s ≠ "" → pyLower s ∉ status_mapping.map Prod.fst →
      normalize_status (some s) = Except.error
        ("Invalid status \x27" ++ (s ++
          "\x27. Valid options: solved, attempted, todo"))) := by
  refine ⟨rfl, rfl, ?_, ?_, ?_, ?_⟩
  · intro s h
    by_cases hs : s = ""
    · rw [hs] at h; exact absurd h (by decide)
    · simp [normalize_status, hs, h, status_mapping, List.lookup]
  · intro s h
    by_cases hs : s = ""
    · rw [hs] at h; exact absurd h (by decide)
    · simp [normalize_status, hs, h, status_mapping, List.lookup]
  · intro s h
    rcases h with h | h | h <;>
    · by_cases hs : s = ""
      · rw [hs] at h; exact absurd h (by decide)
      · simp [normalize_status, hs, h, status_mapping, List.lookup]
  · intro s hne hmem
    simp only [status_mapping, List.map_cons, List.map_nil,
      List.mem_cons, List.not_mem_nil, or_false] at hmem
    push_neg at hmem
    obtain ⟨h1, h2, h3, h4, h5, h6, h7, h8⟩ := hmem
    simp [normalize_status, hne, status_mapping, List.lookup,
      beq_eq_false_iff_ne.mpr h1, beq_eq_false_iff_ne.mpr h2,
      beq_eq_false_iff_ne.mpr h3, beq_eq_false_iff_ne.mpr h4,
      beq_eq_false_iff_ne.mpr h5, beq_eq_false_iff_ne.mpr h6,
      beq_eq_false_iff_ne.mpr h7, beq_eq_false_iff_ne.mpr h8]
    try rfl

/-- Witness for C3: concrete case variants, the empty input, and a
rejected value. -/
theorem normalize_status_spec_witness :
    normalize_status (some "Solved") = Except.ok (some "SOLVED") ∧
    normalize_status (some "ATTEMPTED") = Except.ok (some "ATTEMPTED") ∧
    normalize_status (some "To-Do") = Except.ok (some "TO_DO") ∧
    normalize_status (some "extreme") = Except.error
      ("Invalid status \x27" ++ ("extreme" ++
        "\x27. Valid options: solved, attempted, todo")) :=
  ⟨normalize_status_spec.2.2.1 "Solved" (by decide),
   normalize_status_spec.2.2.2.1 "ATTEMPTED" (by decide),
   normalize_status_spec.2.2.2.2.1 "To-Do" (Or.inr (Or.inr (by decide))),
   normalize_status_spec.2.2.2.2.2 "extreme" (by decide) (by decide)⟩

/-- C4: for every raw record the mapper accepts, a missing `status` maps
to absent, missing `topicTags` to the empty topic list, missing `acRate`
to 0.0, missing `paidOnly` to false and missing `frequency` to absent;
a record with only the required identity fields maps successfully (the
missing optionals are not an error); and the Two Sum record of the spec
maps to the stated `Question`, whose derived url is built from
`titleSlug`. -/
theorem from_api_response_defaults :
    (∀ d q, Question.from_api_response d = some q →
      (List.lookup "status" d = none → q.status = none) ∧
      (List.lookup "topicTags" d = none → q.topics = []) ∧
      (List.lookup "acRate" d = none → q.acceptance_rate = 0) ∧
      (List.lookup "paidOnly" d = none → q.is_paid_only = false) ∧
      (List.lookup "frequency" d = none → q.frequency = none)) ∧
    (Question.from_api_response minimalRaw =
      some (Question.mk "9" "Palindrome Number" "palindrome-number" "Easy"
        none [] 0 false none)) ∧
    (Question.from_api_response twoSumRaw =
      some (Question.mk "1" "Two Sum" "two-sum" "Easy" (some "SOLVED")
        ["Array"] 51.3 false (some 0.8))) ∧
    (Question.url (Question.mk "1" "Two Sum" "two-sum" "Easy"
        (some "SOLVED") ["Array"] 51.3 false (some 0.8)) =
      "https://leetcode.com/problems/two-sum") := by
  refine ⟨?_, rfl, rfl, rfl⟩
  intro d q h
  simp only [Question.from_api_response, bind, Option.bind_eq_some,
    Option.some.injEq] at h
  obtain ⟨i, hi, t, ht, sl, hsl, df, hdf, st, hst, tp, htp, ar, har,
    po, hpo, fr, hfr, hq⟩ := h
  subst hq
  refine ⟨?_, ?_, ?_, ?_, ?_⟩
  · intro hnone
    simp [pyGetOptStr, hnone] at hst
    exact hst.symm
  · intro hnone
    rw [hnone] at htp
    simp [getTopics] at htp
    exact htp
  · intro hnone
    simp [pyGetNumD, hnone] at har
    exact har.symm
  · intro hnone
    simp [pyGetBoolD, hnone] at hpo
    exact hpo
  · intro hnone
    simp [pyGetOptNum, hnone] at hfr
    exact hfr.symm

/-- Witness for C4: the defaulting clauses applied to the record with
only the required fields. -/
theorem from_api_response_defaults_witness :
    (Question.mk "9" "Palindrome Number" "palindrome-number" "Easy"
      none [] 0 false none).status = none ∧
    (Question.mk "9" "Palindrome Number" "palindrome-number" "Easy"
      none [] 0 false none).topics = [] ∧
    (Question.mk "9" "Palindrome Number" "palindrome-number" "Easy"
      none [] 0 false none).acceptance_rate = 0 ∧
    (Question.mk "9" "Palindrome Number" "palindrome-number" "Easy"
      none [] 0 false none).is_paid_only = false ∧
    (Question.mk "9" "Palindrome Number" "palindrome-number" "Easy"
      none [] 0 false none).frequency = none :=
  have h := from_api_response_defaults.1 minimalRaw
    (Question.mk "9" "Palindrome Number" "palindrome-number" "Easy"
      none [] 0 false none) rfl
  ⟨h.1 rfl, h.2.1 rfl, h.2.2.1 rfl, h.2.2.2.1 rfl, h.2.2.2.2 rfl⟩

/-- C5: the response mapper is a pure function of the raw record: in
this embedding `Question.from_api_response` is a total function with no
state, so equal raw records always map to equal results (mapping the
same record twice yields equal `Question` values). -/
theorem from_api_response_pure (d₁ d₂ : JObj) (h : d₁ = d₂) :
    Question.from_api_response d₁ = Question.from_api_response d₂ := by
  rw [h]

/-- Witness for C5 at the Two Sum record. -/
theorem from_api_response_pure_witness :
    Question.from_api_response twoSumRaw =
      Question.from_api_response twoSumRaw :=
  from_api_response_pure twoSumRaw twoSumRaw rfl

/-- Keys after a Python dict assignment: the assigned key joins the key
set, nothing else changes. -/
theorem mem_keys_dictSet (m : List (String × ℚ)) (k₀ k : String) (v : ℚ) :
    k ∈ (dictSet m k₀ v).map Prod.fst ↔ k ∈ m.map Prod.fst ∨ k = k₀ := by
  unfold dictSet
  by_cases hmem : m.any (fun p => p.1 == k₀) = true
  · rw [if_pos hmem]
    have hkeys : (m.map (fun p => if p.1 == k₀ then (p.1, v) else p)).map
        Prod.fst = m.map Prod.fst := by
      rw [List.map_map]
      refine List.map_congr_left ?_
      intro p _
      by_cases hp : p.1 = k₀ <;> simp [hp]
    rw [hkeys]
    have hk0 : k₀ ∈ m.map Prod.fst := by
      obtain ⟨p, hp, hpk⟩ := List.any_eq_true.mp hmem
      have hp1 : p.1 = k₀ := by simpa using hpk
      exact hp1 ▸ List.mem_map_of_mem Prod.fst hp
    constructor
    · exact Or.inl
    · rintro (h | rfl)
      · exact h
      · exact hk0
  · rw [if_neg hmem]
    simp

/-- Keys accumulated by the `acSubmissionNum` loop: exactly the starting
keys plus the difficulty labels of the processed submissions. -/
theorem foldlM_addSubmission_keys (subs : List JVal) :
    ∀ (m m' : List (String × ℚ)),
      List.foldlM addSubmission m subs = some m' →
      ∀ k, (k ∈ m'.map Prod.fst ↔
        (k ∈ m.map Prod.fst ∨ ∃ sub ∈ subs, ∃ fs,
          sub = JVal.obj fs ∧
          List.lookup "difficulty" fs = some (JVal.str k))) := by
  induction subs with
  | nil =>
    intro m m' h k
    simp only [List.foldlM_nil] at h
    cases h
    simp
  | cons sub rest ih =>
    intro m m' h k
    rw [List.foldlM_cons] at h
    rcases hsub : addSubmission m sub with _ | m₁ <;> rw [hsub] at h
    · exact Option.noConfusion h
    · replace h : List.foldlM addSubmission m₁ rest = some m' := h
      have hrec := ih m₁ m' h k
      unfold addSubmission at hsub
      split at hsub
      case h_2 => exact absurd hsub (by simp)
      case h_1 sf =>
        split at hsub
        case h_2 => exact absurd hsub (by simp)
        case h_1 diff c heqd heqc =>
          have hm₁ : m₁ = dictSet m diff c := by
            injection hsub with hs
            exact hs.symm
          subst hm₁
          have hP : (∃ fs, JVal.obj sf = JVal.obj fs ∧
              List.lookup "difficulty" fs = some (JVal.str k)) ↔ k = diff := by
            constructor
            · rintro ⟨fs, hfs, hlk⟩
              injection hfs with hfs
              subst hfs
              have hdd := heqd.symm.trans hlk
              injection hdd with hdd
              injection hdd with hdd
              exact hdd.symm
            · rintro rfl
              exact ⟨sf, rfl, heqd⟩
          rw [hrec, mem_keys_dictSet]
          constructor
          · rintro ((hm | rfl) | ⟨sub', hsub', hp⟩)
            · exact Or.inl hm
            · exact Or.inr ⟨JVal.obj sf, List.mem_cons_self _ _, hP.mpr rfl⟩
            · exact Or.inr ⟨sub', List.mem_cons_of_mem _ hsub', hp⟩
          · rintro (hm | ⟨sub', hsub', hp⟩)
            · exact Or.inl (Or.inl hm)
            · rcases List.mem_cons.mp hsub' with rfl | hmem'
              · exact Or.inl (Or.inr (hP.mp hp))
              · exact Or.inr ⟨sub', hmem', hp⟩

/-- C6 counterexample: a raw record reporting an `All` difficulty maps to
a `solvedCounts` whose key set is not a subset of Easy/Medium/Hard. -/
theorem solved_counts_subset_counterexample :
    UserInfo.from_api_response allCountsRaw =
      some (UserInfo.mk "u" [("All", 5)]) ∧
    "All" ∈ (UserInfo.mk "u" [("All", 5)]).solved_counts.map Prod.fst ∧
    "All" ∉ ["Easy", "Medium", "Hard"] := by
  refine ⟨rfl, by decide, by decide⟩

/-- C6 amended: for every raw user record the mapper accepts, the keys of
`solvedCounts` are exactly the difficulty labels reported in the raw
`acSubmissionNum` list — in particular a difficulty absent from that list
is never materialized as a key. -/
theorem solved_counts_keys (d : JObj) (ss : JObj) (subs : List JVal)
    (u : UserInfo)
    (hss : List.lookup "submitStats" d = some (JVal.obj ss))
    (hsubs : List.lookup "acSubmissionNum" ss = some (JVal.arr subs))
    (hu : UserInfo.from_api_response d = some u) :
    ∀ k, k ∈ u.solved_counts.map Prod.fst ↔
      ∃ sub ∈ subs, ∃ fs, sub = JVal.obj fs ∧
        List.lookup "difficulty" fs = some (JVal.str k) := by
  simp only [UserInfo.from_api_response, bind, Option.bind_eq_some, hss,
    hsubs, Option.some.injEq] at hu
  obtain ⟨un, hun, sc, hsc, hmk⟩ := hu
  subst hmk
  intro k
  have h := foldlM_addSubmission_keys subs [] sc hsc k
  simpa using h

/-- Witness for C6 at the test fixture record, at key `Easy`. -/
theorem solved_counts_keys_witness :
    "Easy" ∈ (UserInfo.mk "testuser"
        [("Easy", 50), ("Medium", 30), ("Hard", 10)]).solved_counts.map
        Prod.fst ↔
      ∃ sub ∈ [JVal.obj [("difficulty", JVal.str "Easy"),
                         ("count", JVal.num 50)],
               JVal.obj [("difficulty", JVal.str "Medium"),
                         ("count", JVal.num 30)],
               JVal.obj [("difficulty", JVal.str "Hard"),
                         ("count", JVal.num 10)]],
        ∃ fs, sub = JVal.obj fs ∧
          List.lookup "difficulty" fs = some (JVal.str "Easy") :=
  solved_counts_keys sampleUserRaw
    [("acSubmissionNum", JVal.arr
      [JVal.obj [("difficulty", JVal.str "Easy"), ("count", JVal.num 50)],
       JVal.obj [("difficulty", JVal.str "Medium"), ("count", JVal.num 30)],
       JVal.obj [("difficulty", JVal.str "Hard"), ("count", JVal.num 10)]])]
    [JVal.obj [("difficulty", JVal.str "Easy"), ("count", JVal.num 50)],
     JVal.obj [("difficulty", JVal.str "Medium"), ("count", JVal.num 30)],
     JVal.obj [("difficulty", JVal.str "Hard"), ("count", JVal.num 10)]]
    (UserInfo.mk "testuser" [("Easy", 50), ("Medium", 30), ("Hard", 10)])
    rfl rfl rfl "Easy"

/-- C7 counterexample: a 200 response whose decoded body carries an
*empty* `errors` array is classified as an API error (the source tests
the presence of the `errors` key, not non-emptiness), refuting
"raises APIError exactly when the status is not 200 or the errors array
is non-empty". -/
theorem make_request_empty_errors_counterexample :
    emptyErrorsResp.status = 200 ∧
    emptyErrorsResp.decoded = some [("errors", JVal.arr [])] ∧
    make_request true emptyErrorsResp =
      RequestResult.apiError "GraphQL errors: " := by
  refine ⟨rfl, rfl, rfl⟩

/-- C7 amended: given a loaded session and a body that decodes as JSON,
the transport raises APIError exactly when the status is not 200 or the
decoded body contains an `errors` key (even an empty one); with a
well-formed errors array the message carries the concatenated error
messages, also on status 200; a 200 body with no `errors` key succeeds
with the payload. -/
theorem make_request_classification (resp : HttpResponse) (data : JObj)
    (hd : resp.decoded = some data) :
    (resp.status = 200 → List.lookup "errors" data = none →
      make_request true resp = RequestResult.success data) ∧
    (∀ es msgs, resp.status = 200 →
      List.lookup "errors" data = some (JVal.arr es) →
      errMessages es = some msgs →
      make_request true resp = RequestResult.apiError
        ("GraphQL errors: " ++ String.intercalate ", " msgs)) ∧
    (resp.status ≠ 200 → List.lookup "errors" data = none →
      make_request true resp = RequestResult.apiError
        ("API request failed with status code: " ++ toString resp.status)) ∧
    (∀ es msgs, resp.status ≠ 200 →
      List.lookup "errors" data = some (JVal.arr es) →
      errMessages es = some msgs →
      make_request true resp = RequestResult.apiError
        ("API request failed with status code: " ++ toString resp.status ++
          ". Errors: " ++ String.intercalate ", " msgs)) ∧
    (∀ m, make_request true resp = RequestResult.apiError m →
      resp.status ≠ 200 ∨ (List.lookup "errors" data).isSome) := by
  refine ⟨?_, ?_, ?_, ?_, ?_⟩
  · intro h200 herr
    simp [make_request, hd, h200, herr]
  · intro es msgs h200 herr hmsgs
    simp [make_request, hd, h200, herr, hmsgs]
  · intro h200 herr
    simp [make_request, hd, h200, herr]
  · intro es msgs h200 herr hmsgs
    simp [make_request, hd, h200, herr, hmsgs]
  · intro m hm
    by_cases h200 : resp.status = 200
    · rcases herr : List.lookup "errors" data with _ | v
      · simp [make_request, hd, h200, herr] at hm
      · simp [herr]
    · exact Or.inl h200

/-- Witness for C7: a 200 response reporting one GraphQL error message is
an APIError carrying that message; a plain 200 payload succeeds. -/
theorem make_request_classification_witness :
    make_request true authErrorResp =
      RequestResult.apiError "GraphQL errors: Not authenticated" ∧
    make_request true (HttpResponse.mk 200 "" (some [("data", JVal.null)]) "") =
      RequestResult.success [("data", JVal.null)] :=
  ⟨(make_request_classification authErrorResp
      [("errors", JVal.arr [JVal.obj [("message", JVal.str "Not authenticated")]])]
      rfl).2.1
      [JVal.obj [("message", JVal.str "Not authenticated")]]
      ["Not authenticated"] rfl rfl rfl,
   (make_request_classification (HttpResponse.mk 200 "" (some [("data", JVal.null)]) "")
      [("data", JVal.null)] rfl).1 rfl rfl⟩

/-- C8 counterexample: for the body `not json` the rendering by the decoder is
`Expecting value: line 1 column 1 (char 0)` and the resulting error
message does not contain the raw response body, refuting "the error
carries the raw response body". -/
theorem parse_error_body_counterexample :
    make_request true notJsonResp = RequestResult.parseError
      "Failed to parse JSON response: Expecting value: line 1 column 1 (char 0)" ∧
    strContainsSub
      "Failed to parse JSON response: Expecting value: line 1 column 1 (char 0)"
      notJsonResp.rawBody = false := by
  refine ⟨rfl, by decide⟩

/-- C8 amended: for every response whose body is not valid JSON, the
transport call fails with a ParseError whose message carries the error
rendering of the JSON decoder (its message and position), not the raw
response body. -/
theorem parse_error_message (resp : HttpResponse)
    (h : resp.decoded = none) :
    make_request true resp = RequestResult.parseError
      ("Failed to parse JSON response: " ++ resp.decodeErrMsg) := by
  simp [make_request, h]

/-- Witness for C8 at the `not json` response. -/
theorem parse_error_message_witness :
    make_request true notJsonResp = RequestResult.parseError
      ("Failed to parse JSON response: " ++
        "Expecting value: line 1 column 1 (char 0)") :=
  parse_error_message notJsonResp rfl

/-- C9: loading from a missing or empty (after stripping) session file
fails and leaves the manager state unchanged — in particular a fresh
manager retains no token — and with no token loaded every transport call
fails as SessionNotLoaded, uniformly in the response (so before any
network activity can matter). -/
theorem load_session_failure :
    (∀ tok, load_session tok none = (false, tok)) ∧
    (∀ tok c, pyStrip c = "" → load_session tok (some c) = (false, tok)) ∧
    (∀ resp, make_request
      (is_session_loaded (load_session none (some "")).2) resp =
      RequestResult.sessionNotLoaded
        "Session not loaded. Please load session first.") := by
  refine ⟨fun tok => rfl, ?_, fun resp => rfl⟩
  intro tok c h
  simp [load_session, h]

/-- Witness for C9: a whitespace-only session file. -/
theorem load_session_failure_witness :
    load_session none (some " \n") = (false, none) :=
  load_session_failure.2.1 none " \n" (by decide)

/-- C10: `search_questions keyword limit` delegates to `fetch_questions`
on the filter whose `search_keyword` is the keyword, whose `limit` is the
given limit, and whose remaining fields take the dataclass defaults
(status and difficulty unset, skip 0, paid content included): both the
end-to-end result and the built request variables coincide. -/
theorem search_questions_refines_fetch (sessionLoaded : Bool)
    (keyword : String) (lim : Int) (resp : HttpResponse) :
    search_questions sessionLoaded keyword lim resp =
      fetch_questions sessionLoaded (searchFilterSpec keyword lim) resp ∧
    buildVariables (QuestionFilter.mk QuestionFilter.defaults.status
        QuestionFilter.defaults.difficulty (some keyword) lim
        QuestionFilter.defaults.skip QuestionFilter.defaults.include_paid) =
      buildVariables (searchFilterSpec keyword lim) :=
  ⟨rfl, rfl⟩
